import Mathlib

/-!
Shallow embedding of the VirtualPet repository (src/quietTime.ts, src/App.tsx,
src/types.ts) and verification of its specification claims.

Conventions of the embedding:
* JavaScript epoch-millisecond timestamps and minute stamps are `Int`
  (JS numbers are exact integers in the relevant range).
* `localStorage` is modelled by the explicit `QuietStore` record holding the
  two persisted keys (`psim_actionMinutes` as a `List Int`,
  `psim_quietUntil` as an `Option Int`); each function that reads/writes
  storage takes the store and returns the updated store.
* `Date.now()` is an explicit `now : Int` argument.
* `Math.random()` is an explicit rational argument `q` with `0 ≤ q < 1`.
* JS truthiness of the stored `quietUntil : number | null` is modelled
  exactly: `null` and `0` are falsy.
-/

namespace VirtualPet

/-! ## quietTime.ts -/

/-- Source: `const HOUR_MINUTES = 60;` -/
def HOUR_MINUTES : Int := 60

/-- Source: `const QUIET_MIN_PER_HOUR = 20;` -/
def QUIET_MIN_PER_HOUR : Int := 20

/-- Source: `const ACTIVE_PLAY_LIMIT = HOUR_MINUTES - QUIET_MIN_PER_HOUR; // 40` -/
def ACTIVE_PLAY_LIMIT : Int := HOUR_MINUTES - QUIET_MIN_PER_HOUR

/-- Source: `const QUIET_BLOCK_MIN = 20;` -/
def QUIET_BLOCK_MIN : Int := 20

/-- Source: `const nowMinute = () => Math.floor(Date.now() / 60000);`
`Math.floor` of a real division is floor division (`Int.fdiv`). -/
def nowMinute (now : Int) : Int := Int.fdiv now 60000

/-- The persisted `localStorage` state used by quietTime.ts:
`psim_actionMinutes` (a JSON list of minute stamps; `loadMinutes` returns
`[]` when missing/malformed) and `psim_quietUntil` (`getQuietUntil` returns
`null` when the key is absent). -/
structure QuietStore where
  minutes : List Int
  quietUntil : Option Int
  deriving DecidableEq, Repr

/-- Source `purgeOld(mins, ref)`: keep `m >= ref - (HOUR_MINUTES - 1)`.
(The JS default argument `ref = nowMinute()` is always overridden at the one
call site; we take `ref` explicitly.) -/
def purgeOld (mins : List Int) (ref : Int) : List Int :=
  mins.filter (fun m => ref - (HOUR_MINUTES - 1) ≤ m)

/-- Result record of `registerAction`: the updated store plus the returned
object `{ quietUntil, activeInWindow }`. -/
structure RegisterResult where
  store : QuietStore
  quietUntil : Option Int
  activeInWindow : Nat
  deriving DecidableEq, Repr

/-- The JS condition `(!quietUntil || Date.now() >= quietUntil)`:
short-circuit means the comparison only runs when `quietUntil` is a truthy
number. -/
def jsUnsetOrPassed (q0 : Option Int) (now : Int) : Bool :=
  match q0 with
  | none => true
  | some v => decide (v = 0) || decide (v ≤ now)

/-- The JS condition `(quietUntil && Date.now() >= quietUntil)`. -/
def jsSetAndPassed (q0 : Option Int) (now : Int) : Bool :=
  match q0 with
  | none => false
  | some v => decide (¬v = 0) && decide (v ≤ now)

/-- Lines 43–44 of registerAction: prune with the current minute as reference,
then `if (!minutes.includes(m)) minutes.push(m);`. -/
def updatedMinutes (mins : List Int) (m : Int) : List Int :=
  let minutes0 := purgeOld mins m
  if minutes0.contains m then minutes0 else minutes0 ++ [m]

/-- Lines 48–60 of registerAction: the quiet-until value after maybe starting
quiet time
(`if (active >= ACTIVE_PLAY_LIMIT && (!quietUntil || Date.now() >= quietUntil))`)
and then clearing it when expired
(`if (quietUntil && Date.now() >= quietUntil)`). -/
def quietUpdate (q0 : Option Int) (now : Int) (active : Nat) : Option Int :=
  let q1 : Option Int :=
    if decide (ACTIVE_PLAY_LIMIT ≤ (active : Int)) && jsUnsetOrPassed q0 now
    then some (now + QUIET_BLOCK_MIN * 60 * 1000)
    else q0
  if jsSetAndPassed q1 now then none else q1

/-- Source `registerAction()` from quietTime.ts, with `Date.now()` passed as `now`
and the storage passed as `s`: prune + append the current minute if absent,
save, update the quiet-until value, and return
`{ quietUntil, activeInWindow }`. -/
def registerAction (s : QuietStore) (now : Int) : RegisterResult :=
  let minutes := updatedMinutes s.minutes (nowMinute now)
  let active := minutes.length
  let q2 := quietUpdate s.quietUntil now active
  { store := { minutes := minutes, quietUntil := q2 }, quietUntil := q2,
    activeInWindow := active }

/-- Result record of `isQuietActive`: the (possibly lazily-cleared) store plus
the returned object `{ active, until }`. -/
structure CheckResult where
  store : QuietStore
  active : Bool
  quietUntil : Option Int
  deriving DecidableEq, Repr

/-- Source `isQuietActive()` from quietTime.ts:
`if (!until) return {active:false, until:null};`
`if (Date.now() >= until) { setQuietUntil(null); return {active:false, until:null}; }`
`return {active:true, until};` -/
def isQuietActive (s : QuietStore) (now : Int) : CheckResult :=
  match s.quietUntil with
  | none => { store := s, active := false, quietUntil := none }
  | some v =>
      if v = 0 then { store := s, active := false, quietUntil := none }
      else if v ≤ now then
        { store := { s with quietUntil := none }, active := false, quietUntil := none }
      else { store := s, active := true, quietUntil := some v }

/-! ## types.ts and App.tsx -/

/-- Source: `export type PetState` of types.ts with the three states AWAKE, DROWSY, SLEEPING. -/
inductive PetState
  | AWAKE
  | DROWSY
  | SLEEPING
  deriving DecidableEq, Repr

/-- The four action kinds of `doAction(kind: 'FEED' | 'GROOM' | 'PLAY' | 'CUDDLE')`. -/
inductive ActionKind
  | FEED
  | GROOM
  | PLAY
  | CUDDLE
  deriving DecidableEq, Repr

/-- Source: `interface Needs` of types.ts with fields hunger, cleanliness, playfulness, affection. -/
structure Needs where
  hunger : Int
  cleanliness : Int
  playfulness : Int
  affection : Int
  deriving DecidableEq, Repr

/-- Source: `const IDLE_TO_DROWSY_MS = 8 * 60 * 1000;` -/
def IDLE_TO_DROWSY_MS : Int := 8 * 60 * 1000

/-- Source: `const DROWSY_TO_SLEEP_MS = 2 * 60 * 1000; // => sleep at 10 min total` -/
def DROWSY_TO_SLEEP_MS : Int := 2 * 60 * 1000

/-- Source: `const AUTO_WAKE_MIN_MS = 5 * 60 * 1000;` -/
def AUTO_WAKE_MIN_MS : Int := 5 * 60 * 1000

/-- Source: `const AUTO_WAKE_MAX_MS = 12 * 60 * 1000;` -/
def AUTO_WAKE_MAX_MS : Int := 12 * 60 * 1000

/-- Source: `const clamp = (n, min=0, max=100) => Math.max(min, Math.min(max, n));`
(always used with the default bounds). -/
def clamp (n : Int) : Int := max 0 (min 100 n)

/-- The React component state of `App` that the core logic touches:
`petState`, `needs`, `quietUntil` (the UI mirror of the gate),
`sleepUntil`, the `lastInputRef` idle clock, and the persisted store. -/
structure AppState where
  petState : PetState
  needs : Needs
  quietUntilUI : Option Int
  sleepUntil : Option Int
  lastInput : Int
  store : QuietStore
  deriving DecidableEq, Repr

/-- The per-action need delta object
`{ FEED: {hunger:+15}, GROOM: {cleanliness:+15}, PLAY: {playfulness:+15},
CUDDLE: {affection:+15} }[kind]`, with absent fields read back as
`?? 0` in `doAction`. -/
def deltaOf : ActionKind → Needs
  | .FEED => ⟨15, 0, 0, 0⟩
  | .GROOM => ⟨0, 15, 0, 0⟩
  | .PLAY => ⟨0, 0, 15, 0⟩
  | .CUDDLE => ⟨0, 0, 0, 15⟩

/-- The `setNeeds` updater inside `doAction`:
each field becomes `clamp(n.field + (delta.field ?? 0))`. -/
def applyNeeds (kind : ActionKind) (n : Needs) : Needs :=
  let d := deltaOf kind
  { hunger := clamp (n.hunger + d.hunger)
    cleanliness := clamp (n.cleanliness + d.cleanliness)
    playfulness := clamp (n.playfulness + d.playfulness)
    affection := clamp (n.affection + d.affection) }

/-- The 15-second decay interval body: while `petState` is `AWAKE` or
`DROWSY`, each need becomes `clamp(need - 1)`; no decay while `SLEEPING`. -/
def decayTick (st : AppState) : AppState :=
  match st.petState with
  | .AWAKE | .DROWSY =>
      { st with needs :=
          { hunger := clamp (st.needs.hunger - 1)
            cleanliness := clamp (st.needs.cleanliness - 1)
            playfulness := clamp (st.needs.playfulness - 1)
            affection := clamp (st.needs.affection - 1) } }
  | .SLEEPING => st

/-- The random auto-wake span
`AUTO_WAKE_MIN_MS + Math.floor(Math.random() * (AUTO_WAKE_MAX_MS - AUTO_WAKE_MIN_MS))`,
with `Math.random()` passed as the rational `q`. -/
def autoWakeSpan (q : ℚ) : Int :=
  AUTO_WAKE_MIN_MS + ⌊q * ((AUTO_WAKE_MAX_MS - AUTO_WAKE_MIN_MS : Int) : ℚ)⌋

/-- The idle → drowsy → sleep effect of App.tsx (the `useEffect` keyed on
`[now, petState]`). Both `if`s read the same `petState` render snapshot; when
both fire the later `setPetState('SLEEPING')` wins, so the composite result
is `SLEEPING` whenever the second guard holds. `since = now - lastInputRef.current`. -/
def idleCheck (st : AppState) (now : Int) (q : ℚ) : AppState :=
  let since := now - st.lastInput
  if IDLE_TO_DROWSY_MS + DROWSY_TO_SLEEP_MS ≤ since ∧ st.petState ≠ .SLEEPING then
    { st with petState := .SLEEPING, sleepUntil := some (now + autoWakeSpan q) }
  else if st.petState = .AWAKE ∧ IDLE_TO_DROWSY_MS ≤ since then
    { st with petState := .DROWSY }
  else st

/-- The auto-wake effect of App.tsx:
`if (!sleepUntil) return;`
`if (Date.now() >= sleepUntil) { setPetState('AWAKE'); setSleepUntil(null); }`
(`sleepUntil === 0` is falsy in JS, hence the explicit `u = 0` case). -/
def autoWakeCheck (st : AppState) (now : Int) : AppState :=
  match st.sleepUntil with
  | none => st
  | some u =>
      if u = 0 then st
      else if u ≤ now then { st with petState := .AWAKE, sleepUntil := none }
      else st

/-- One 1-second heartbeat: `setNow(Date.now())` re-runs the idle/drowsy/sleep
effect and then the auto-wake effect (their declaration order in App.tsx). -/
def tickSecond (st : AppState) (now : Int) (q : ℚ) : AppState :=
  autoWakeCheck (idleCheck st now q) now

/-- Source `doAction(kind)` from App.tsx:
quiet-time gate via `isQuietActive()` (early return when blocked, only
`setQuietUntil(qt.until)` runs), else `registerAction()`,
`setQuietUntil(q ?? null)`, `setPetState('AWAKE')`,
`lastInputRef.current = Date.now()`, `setSleepUntil(null)`, and the
need update. -/
def doAction (st : AppState) (kind : ActionKind) (now : Int) : AppState :=
  let qt := isQuietActive st.store now
  if qt.active then
    { st with store := qt.store, quietUntilUI := qt.quietUntil }
  else
    let r := registerAction qt.store now
    { petState := .AWAKE
      needs := applyNeeds kind st.needs
      quietUntilUI := r.quietUntil
      sleepUntil := none
      lastInput := now
      store := r.store }

/-- Source `tryWake()` from App.tsx: gate via `isQuietActive()`; if admitted,
`setPetState('AWAKE')`, `setSleepUntil(null)`,
`lastInputRef.current = Date.now()`, and `registerAction()` (its return
value is ignored — waking counts as an action). Needs are untouched. -/
def tryWake (st : AppState) (now : Int) : AppState :=
  let qt := isQuietActive st.store now
  if qt.active then
    { st with store := qt.store, quietUntilUI := qt.quietUntil }
  else
    { st with petState := .AWAKE
              sleepUntil := none
              lastInput := now
              store := (registerAction qt.store now).store }

/-- The initial `App` state of a fresh session (empty storage): `petState`
starts `'AWAKE'`, needs start at `{70,70,70,70}`, `quietUntil` from
`isQuietActive().until` (which is `null` on an empty store), `sleepUntil`
starts `null`, `lastInputRef` starts at mount time 0. -/
def freshState : AppState :=
  { petState := .AWAKE
    needs := ⟨70, 70, 70, 70⟩
    quietUntilUI := none
    sleepUntil := none
    lastInput := 0
    store := { minutes := [], quietUntil := none } }

/-- The run of C8: 1 Hz ticks at t = 1,2,... seconds from a fresh session at
t = 0, with no user input (the idle clock stays at 0) and a fixed random
draw `q` for the auto-sleep transition. -/
def runIdle (q : ℚ) : Nat → AppState
  | 0 => freshState
  | t + 1 => tickSecond (runIdle q t) (1000 * ((t : Int) + 1)) q

/-- The operations that can touch `AppState` over a session, for the
reachability invariant of C4: a 15-second decay tick, an action button
press, a gentle wake, and a 1-second heartbeat. -/
inductive Op
  | decay
  | act (kind : ActionKind) (now : Int)
  | wake (now : Int)
  | tick (now : Int) (q : ℚ)

/-- Apply one operation. -/
def applyOp (st : AppState) : Op → AppState
  | .decay => decayTick st
  | .act kind now => doAction st kind now
  | .wake now => tryWake st now
  | .tick now q => tickSecond st now q

/-- Apply a sequence of operations. -/
def runOps (st : AppState) (ops : List Op) : AppState :=
  ops.foldl applyOp st

/-- All four needs are integers within [0, 100]. -/
def NeedsInRange (n : Needs) : Prop :=
  0 ≤ n.hunger ∧ n.hunger ≤ 100 ∧
  0 ≤ n.cleanliness ∧ n.cleanliness ≤ 100 ∧
  0 ≤ n.playfulness ∧ n.playfulness ≤ 100 ∧
  0 ≤ n.affection ∧ n.affection ≤ 100

instance (n : Needs) : Decidable (NeedsInRange n) := by
  unfold NeedsInRange; infer_instance

/-! ## Helper lemmas about the quiet-time gate -/

/-- The spec wording "no cooldown deadline is currently set OR the existing deadline has
already passed" (the spec's wording of the step-5 guard). -/
def UnsetOrPassed (s : QuietStore) (now : Int) : Prop :=
  s.quietUntil = none ∨ ∃ d, s.quietUntil = some d ∧ d ≤ now

lemma jsUnsetOrPassed_iff (q0 : Option Int) (now : Int) (h0 : 0 ≤ now) :
    jsUnsetOrPassed q0 now = true ↔ (q0 = none ∨ ∃ d, q0 = some d ∧ d ≤ now) := by
  cases q0 with
  | none => simp [jsUnsetOrPassed]
  | some v => simp [jsUnsetOrPassed]; omega

lemma registerAction_store_minutes (s : QuietStore) (now : Int) :
    (registerAction s now).store.minutes = updatedMinutes s.minutes (nowMinute now) := rfl

lemma registerAction_active (s : QuietStore) (now : Int) :
    (registerAction s now).activeInWindow = (updatedMinutes s.minutes (nowMinute now)).length := rfl

lemma registerAction_store_quietUntil (s : QuietStore) (now : Int) :
    (registerAction s now).store.quietUntil =
      quietUpdate s.quietUntil now (updatedMinutes s.minutes (nowMinute now)).length := rfl

lemma registerAction_ret_quietUntil (s : QuietStore) (now : Int) :
    (registerAction s now).quietUntil = (registerAction s now).store.quietUntil := rfl

lemma quietUpdate_set (q0 : Option Int) (now : Int) (active : Nat)
    (hA : ACTIVE_PLAY_LIMIT ≤ (active : Int)) (hU : jsUnsetOrPassed q0 now = true) :
    quietUpdate q0 now active = some (now + QUIET_BLOCK_MIN * 60 * 1000) := by
  have hle : ¬(now + QUIET_BLOCK_MIN * 60 * 1000 ≤ now) := by
    unfold QUIET_BLOCK_MIN; omega
  simp [quietUpdate, hA, hU, jsSetAndPassed, hle]

lemma quietUpdate_unexpired (d now : Int) (active : Nat)
    (h0 : 0 ≤ now) (hd : now < d) :
    quietUpdate (some d) now active = some d := by
  have hne : ¬d = 0 := by omega
  have hnle : ¬d ≤ now := by omega
  simp [quietUpdate, jsUnsetOrPassed, jsSetAndPassed, hne, hnle]

lemma quietUpdate_noset (q0 : Option Int) (now : Int) (active : Nat)
    (h : (decide (ACTIVE_PLAY_LIMIT ≤ (active : Int)) && jsUnsetOrPassed q0 now) = false) :
    quietUpdate q0 now active = q0 ∨ quietUpdate q0 now active = none := by
  by_cases hc : jsSetAndPassed q0 now = true
  · right; simp [quietUpdate, h, hc]
  · left; simp [quietUpdate, h, hc]

lemma mem_updatedMinutes (mins : List Int) (m x : Int) :
    x ∈ updatedMinutes mins m ↔
      ((x ∈ mins ∧ m - (HOUR_MINUTES - 1) ≤ x) ∨ x = m) := by
  unfold updatedMinutes purgeOld
  by_cases hc : (mins.filter (fun y => decide (m - (HOUR_MINUTES - 1) ≤ y))).contains m
  · rw [if_pos hc]
    have hm : m ∈ mins.filter (fun y => decide (m - (HOUR_MINUTES - 1) ≤ y)) := by
      simpa using hc
    simp only [List.mem_filter, decide_eq_true_eq]
    constructor
    · exact fun h => Or.inl h
    · rintro (h | rfl)
      · exact h
      · simpa [List.mem_filter] using hm
  · rw [if_neg hc]
    simp [List.mem_filter, List.mem_append]

lemma nodup_updatedMinutes (mins : List Int) (m : Int) (h : mins.Nodup) :
    (updatedMinutes mins m).Nodup := by
  unfold updatedMinutes
  by_cases hc : (purgeOld mins m).contains m
  · rw [if_pos hc]
    exact h.filter _
  · rw [if_neg hc]
    have hnm : m ∉ purgeOld mins m := by
      intro hm
      exact hc (by simpa using hm)
    simp only [List.nodup_append, List.nodup_cons, List.not_mem_nil, not_false_iff,
      List.nodup_nil, and_true, true_and]
    exact ⟨h.filter _, by simpa [List.disjoint_singleton] using hnm⟩

lemma length_updatedMinutes_le (mins : List Int) (m : Int)
    (hnd : mins.Nodup) (hle : ∀ x ∈ mins, x ≤ m) :
    (updatedMinutes mins m).length ≤ 60 := by
  have hnd' : (updatedMinutes mins m).Nodup := nodup_updatedMinutes mins m hnd
  have hsub : (updatedMinutes mins m).toFinset ⊆ Finset.Icc (m - 59) m := by
    intro x hx
    rw [List.mem_toFinset, mem_updatedMinutes] at hx
    rw [Finset.mem_Icc]
    rcases hx with ⟨hx1, hx2⟩ | rfl
    · refine ⟨by simpa [HOUR_MINUTES] using hx2, hle x hx1⟩
    · omega
  have hcard : (updatedMinutes mins m).toFinset.card = (updatedMinutes mins m).length :=
    List.toFinset_card_of_nodup hnd'
  have h60 : (Finset.Icc (m - 59) m).card = 60 := by
    rw [Int.card_Icc]
    omega
  calc (updatedMinutes mins m).length
      = (updatedMinutes mins m).toFinset.card := hcard.symm
    _ ≤ (Finset.Icc (m - 59) m).card := Finset.card_le_card hsub
    _ = 60 := h60

/-! ## C1 -/

/-- Claim C1: for every `registerAction` call at time `now` (after pruning and
inserting the current minute): the returned deadline-or-null and window
cardinality are exactly the persisted ones; a new cooldown deadline equal to
`now + 20` minutes is set and persisted when the window cardinality is ≥ 40
and the stored deadline is unset or already passed; when an unexpired
deadline exists it is left unchanged (never extended or stacked) and is also
what the call returns; and when the set-guard fails, no new deadline value is
ever invented (the stored one is kept or, if expired, cleared). -/
theorem registerAction_cooldown_spec (s : QuietStore) (now : Int) (h0 : 0 ≤ now) :
    (registerAction s now).quietUntil = (registerAction s now).store.quietUntil ∧
    (registerAction s now).activeInWindow = (registerAction s now).store.minutes.length ∧
    (ACTIVE_PLAY_LIMIT ≤ ((registerAction s now).activeInWindow : Int) →
      UnsetOrPassed s now →
      (registerAction s now).store.quietUntil = some (now + QUIET_BLOCK_MIN * 60 * 1000)) ∧
    (∀ d, s.quietUntil = some d → now < d →
      (registerAction s now).store.quietUntil = some d ∧
      (registerAction s now).quietUntil = some d) ∧
    (¬(ACTIVE_PLAY_LIMIT ≤ ((registerAction s now).activeInWindow : Int) ∧
        UnsetOrPassed s now) →
      (registerAction s now).store.quietUntil = s.quietUntil ∨
      (registerAction s now).store.quietUntil = none) := by
  refine ⟨rfl, rfl, ?_, ?_, ?_⟩
  · intro hA hU
    rw [registerAction_store_quietUntil]
    exact quietUpdate_set _ _ _ (by rwa [registerAction_active] at hA)
      ((jsUnsetOrPassed_iff s.quietUntil now h0).mpr hU)
  · intro d hd hlt
    have h := quietUpdate_unexpired d now
      (updatedMinutes s.minutes (nowMinute now)).length h0 hlt
    refine ⟨?_, ?_⟩
    · rw [registerAction_store_quietUntil, hd, h]
    · rw [registerAction_ret_quietUntil, registerAction_store_quietUntil, hd, h]
  · intro hguard
    rw [registerAction_store_quietUntil]
    apply quietUpdate_noset
    rw [registerAction_active] at hguard
    by_cases hA : ACTIVE_PLAY_LIMIT ≤ ((updatedMinutes s.minutes (nowMinute now)).length : Int)
    · have hU : ¬UnsetOrPassed s now := fun hU => hguard ⟨hA, hU⟩
      have : jsUnsetOrPassed s.quietUntil now = false := by
        rcases Bool.eq_false_or_eq_true (jsUnsetOrPassed s.quietUntil now) with h | h
        · exact absurd ((jsUnsetOrPassed_iff s.quietUntil now h0).mp h) hU
        · exact h
      simp [this]
    · simp [hA]

/-- Witness for C1: from a stored window of the 39 distinct minutes 0..38 and
no stored deadline, the registration at `now = 2340000` ms (minute 39, the
40th distinct minute) persists the cooldown deadline
`now + 20 min = 3540000`. -/
theorem registerAction_cooldown_spec_witness :
    (registerAction ⟨(List.range 39).map (fun i => (i : Int)), none⟩ 2340000).store.quietUntil
      = some 3540000 := by
  have h := (registerAction_cooldown_spec
    ⟨(List.range 39).map (fun i => (i : Int)), none⟩ 2340000 (by norm_num)).2.2.1
  have h40 : ACTIVE_PLAY_LIMIT ≤
      (((registerAction ⟨(List.range 39).map (fun i => (i : Int)), none⟩ 2340000).activeInWindow : Nat) : Int) := by
    decide
  have hU : UnsetOrPassed ⟨(List.range 39).map (fun i => (i : Int)), none⟩ 2340000 :=
    Or.inl rfl
  simpa using h h40 hU

/-! ## C6 -/

/-- Counterexample to C6 as stated: the claim quantifies over *every* stored
`ActivityWindow`, but `purgeOld` only removes minutes `< M − 59` and keeps
minutes in the future of `M` (which a backwards clock jump can leave behind).
With the 61 distinct stored minutes 101..161 and a call at `now = 6000000` ms
(minute 100), nothing is pruned, minute 100 is appended, and the window size
becomes 62 > 60. -/
theorem registerAction_window_bound_counterexample :
    60 < (registerAction
      ⟨(List.range 61).map (fun i => (101 : Int) + i), none⟩ 6000000).store.minutes.length := by
  decide

/-- Claim C6 (amended): for every stored window and registration at minute
`M = nowMinute now`: every stored minute `< M − 59` is removed, every other
stored minute is kept, `M` is present afterwards and is added only if absent
(a duplicate-free window stays duplicate-free, so repeated actions within the
same wall-clock minute count once), and nothing besides `M` is ever added.
The 60-size bound holds provided the stored window is duplicate-free and
contains no minute after `M` — as is the case for every window the gate
itself wrote under a non-decreasing clock. -/
theorem registerAction_prune_insert_spec (s : QuietStore) (now : Int) :
    (∀ x ∈ s.minutes, x < nowMinute now - 59 → x ∉ (registerAction s now).store.minutes) ∧
    (∀ x ∈ s.minutes, nowMinute now - 59 ≤ x → x ∈ (registerAction s now).store.minutes) ∧
    (nowMinute now ∈ (registerAction s now).store.minutes) ∧
    (∀ x ∈ (registerAction s now).store.minutes, x ∈ s.minutes ∨ x = nowMinute now) ∧
    (s.minutes.Nodup → (registerAction s now).store.minutes.Nodup) ∧
    (s.minutes.Nodup → (∀ x ∈ s.minutes, x ≤ nowMinute now) →
      (registerAction s now).store.minutes.length ≤ 60) := by
  rw [registerAction_store_minutes]
  have h59 : HOUR_MINUTES - 1 = (59 : Int) := by norm_num [HOUR_MINUTES]
  refine ⟨?_, ?_, ?_, ?_, ?_, ?_⟩
  · intro x hx hlt hmem
    rw [mem_updatedMinutes, h59] at hmem
    rcases hmem with ⟨-, hge⟩ | rfl
    · omega
    · have hle : nowMinute now - 59 ≤ nowMinute now := by omega
      omega
  · intro x hx hge
    rw [mem_updatedMinutes, h59]
    exact Or.inl ⟨hx, hge⟩
  · rw [mem_updatedMinutes]
    exact Or.inr rfl
  · intro x hx
    rw [mem_updatedMinutes] at hx
    rcases hx with ⟨hx1, -⟩ | rfl
    · exact Or.inl hx1
    · exact Or.inr rfl
  · exact nodup_updatedMinutes s.minutes (nowMinute now)
  · exact length_updatedMinutes_le s.minutes (nowMinute now)

/-- Witness for C6's amended theorem: a duplicate-free stored window
`[41, 100]` with no minute after minute 101 (`now = 6060000` ms); pruning
removes 41 (< 101 − 59 = 42), keeps 100, appends 101, and the size bound
holds. -/
theorem registerAction_prune_insert_spec_witness :
    ((41 : Int) ∉ (registerAction ⟨[41, 100], none⟩ 6060000).store.minutes) ∧
    ((100 : Int) ∈ (registerAction ⟨[41, 100], none⟩ 6060000).store.minutes) ∧
    ((101 : Int) ∈ (registerAction ⟨[41, 100], none⟩ 6060000).store.minutes) ∧
    (registerAction ⟨[41, 100], none⟩ 6060000).store.minutes.length ≤ 60 := by
  have h := registerAction_prune_insert_spec ⟨[41, 100], none⟩ 6060000
  refine ⟨?_, ?_, ?_, ?_⟩
  · exact h.1 41 (by decide) (by decide)
  · exact h.2.1 100 (by decide) (by decide)
  · have h101 : nowMinute 6060000 = (101 : Int) := by decide
    simpa [h101] using h.2.2.1
  · exact h.2.2.2.2.2 (by decide) (by decide)

/-! ## C7 -/

/-- Counterexample to C7 as stated: `checkAdmission` (`isQuietActive`) is not
always read-only on stored state — when the stored deadline has expired, the
first call clears it (`setQuietUntil(null)`). With stored deadline 5 and
`now = 10`, the call removes the deadline from storage. -/
theorem isQuietActive_counterexample :
    (isQuietActive ⟨[], some 5⟩ 10).store ≠ ⟨[], some 5⟩ := by
  decide

/-- Claim C7 (amended): `isQuietActive` never modifies the stored `ActivityWindow`;
it leaves all stored state unchanged whenever the stored deadline is unset,
zero (falsy), or unexpired; when an expired nonzero deadline is stored the
first call clears it to null; and repeating the call at the same time never
changes anything further — the result of one call is a fixed point
(idempotent lazy expiry). -/
theorem isQuietActive_idempotent_spec (s : QuietStore) (now : Int) :
    ((isQuietActive s now).store.minutes = s.minutes) ∧
    ((s.quietUntil = none ∨ ∃ d, s.quietUntil = some d ∧ (d = 0 ∨ now < d)) →
      (isQuietActive s now).store = s) ∧
    ((∃ d, s.quietUntil = some d ∧ d ≠ 0 ∧ d ≤ now) →
      (isQuietActive s now).store.quietUntil = none) ∧
    (isQuietActive (isQuietActive s now).store now = isQuietActive s now) := by
  rcases s with ⟨mins, q⟩
  cases q with
  | none =>
      refine ⟨rfl, fun _ => rfl, ?_, rfl⟩
      rintro ⟨d, h, -⟩
      cases h
  | some v =>
      by_cases hv : v = 0
      · subst hv
        refine ⟨rfl, fun _ => rfl, ?_, ?_⟩
        · rintro ⟨d, hd, hne, -⟩
          cases hd
          exact absurd rfl hne
        · simp [isQuietActive]
      · by_cases hle : v ≤ now
        · have hres : isQuietActive ⟨mins, some v⟩ now =
              ⟨⟨mins, none⟩, false, none⟩ := by
            simp [isQuietActive, hv, hle]
          refine ⟨by rw [hres], ?_, fun _ => by rw [hres], ?_⟩
          · rintro (h | ⟨d, hd, hd0 | hdlt⟩)
            · cases h
            · cases hd; exact absurd hd0 hv
            · cases hd; omega
          · rw [hres]
            simp [isQuietActive]
        · have hres : isQuietActive ⟨mins, some v⟩ now =
              ⟨⟨mins, some v⟩, true, some v⟩ := by
            simp [isQuietActive, hv, hle]
          refine ⟨by rw [hres], fun _ => by rw [hres], ?_, by rw [hres]; exact hres⟩
          rintro ⟨d, hd, -, hdle⟩
          cases hd
          exact absurd hdle hle

/-- Witness for C7's amended theorem: on a store with window `[3]` and
unexpired deadline 50 at `now = 10`, the call leaves the store exactly
unchanged, and re-running it is a fixed point. -/
theorem isQuietActive_idempotent_spec_witness :
    (isQuietActive ⟨[3], some 50⟩ 10).store = ⟨[3], some 50⟩ ∧
    isQuietActive (isQuietActive ⟨[3], some 50⟩ 10).store 10 =
      isQuietActive ⟨[3], some 50⟩ 10 := by
  have h := isQuietActive_idempotent_spec ⟨[3], some 50⟩ 10
  exact ⟨h.2.1 (Or.inr ⟨50, rfl, Or.inr (by norm_num)⟩), h.2.2.2⟩

/-! ## Helper lemmas about the App component -/

lemma isQuietActive_blocked (s : QuietStore) (now d : Int)
    (hq : s.quietUntil = some d) (h0 : 0 ≤ now) (hd : now < d) :
    isQuietActive s now = ⟨s, true, some d⟩ := by
  have hne : ¬d = 0 := by omega
  have hnle : ¬d ≤ now := by omega
  rcases s with ⟨mins, q⟩
  cases hq
  simp [isQuietActive, hne, hnle]

lemma isQuietActive_inactive_unset (s : QuietStore) (now : Int)
    (h : (isQuietActive s now).active = false) :
    jsUnsetOrPassed (isQuietActive s now).store.quietUntil now = true := by
  rcases s with ⟨mins, q⟩
  cases q with
  | none => simp [isQuietActive, jsUnsetOrPassed]
  | some v =>
      by_cases hv : v = 0
      · subst hv
        simp [isQuietActive, jsUnsetOrPassed]
      · by_cases hle : v ≤ now
        · simp [isQuietActive, jsUnsetOrPassed, hv, hle]
        · exfalso
          simp [isQuietActive, hv, hle] at h

lemma clamp_eq_self (x : Int) (h1 : 0 ≤ x) (h2 : x ≤ 100) : clamp x = x := by
  unfold clamp
  omega

lemma needsInRange_of_clamped (a b c d : Int) :
    NeedsInRange ⟨clamp a, clamp b, clamp c, clamp d⟩ := by
  unfold NeedsInRange clamp
  dsimp only
  omega

lemma needsInRange_applyNeeds (kind : ActionKind) (n : Needs) :
    NeedsInRange (applyNeeds kind n) := by
  unfold applyNeeds
  exact needsInRange_of_clamped _ _ _ _

lemma tryWake_needs (st : AppState) (now : Int) :
    (tryWake st now).needs = st.needs := by
  by_cases hb : (isQuietActive st.store now).active = true
  · simp [tryWake, hb]
  · simp [tryWake, hb]

lemma idleCheck_needs (st : AppState) (now : Int) (q : ℚ) :
    (idleCheck st now q).needs = st.needs := by
  unfold idleCheck
  dsimp only
  split_ifs <;> rfl

lemma autoWakeCheck_needs (st : AppState) (now : Int) :
    (autoWakeCheck st now).needs = st.needs := by
  rcases st with ⟨ps, n, qu, su, li, sto⟩
  unfold autoWakeCheck
  cases su with
  | none => rfl
  | some u =>
      dsimp only
      split_ifs <;> rfl

lemma tickSecond_needs (st : AppState) (now : Int) (q : ℚ) :
    (tickSecond st now q).needs = st.needs := by
  unfold tickSecond
  rw [autoWakeCheck_needs, idleCheck_needs]

/-! ## C3 -/

/-- Claim C3: whenever an unexpired cooldown deadline `d` is stored (quiet
time BLOCKED), `doAction` with any gated kind (FEED, GROOM, PLAY, CUDDLE)
leaves the `NeedsVector`, the pet lifecycle state, the idle clock, and the
persisted `QuietStore` (activity window and deadline) all unchanged; only the
UI-visible block status `quietUntil` is reported back. -/
theorem doAction_blocked_noop (st : AppState) (kind : ActionKind) (now d : Int)
    (hq : st.store.quietUntil = some d) (h0 : 0 ≤ now) (hd : now < d) :
    doAction st kind now = { st with quietUntilUI := some d } ∧
    (doAction st kind now).needs = st.needs ∧
    (doAction st kind now).petState = st.petState ∧
    (doAction st kind now).lastInput = st.lastInput ∧
    (doAction st kind now).sleepUntil = st.sleepUntil ∧
    (doAction st kind now).store = st.store := by
  have hb := isQuietActive_blocked st.store now d hq h0 hd
  have hmain : doAction st kind now = { st with quietUntilUI := some d } := by
    simp [doAction, hb]
  rw [hmain]
  exact ⟨rfl, rfl, rfl, rfl, rfl, rfl⟩

/-- Witness for C3: on a state with stored deadline 100 at `now = 0`, a FEED
press changes nothing but the reported block status. -/
theorem doAction_blocked_noop_witness :
    doAction ⟨.AWAKE, ⟨70, 70, 70, 70⟩, none, none, 0, ⟨[7], some 100⟩⟩ .FEED 0 =
      ⟨.AWAKE, ⟨70, 70, 70, 70⟩, some 100, none, 0, ⟨[7], some 100⟩⟩ := by
  have h := (doAction_blocked_noop
    ⟨.AWAKE, ⟨70, 70, 70, 70⟩, none, none, 0, ⟨[7], some 100⟩⟩ .FEED 0 100
    rfl (by norm_num) (by norm_num)).1
  simpa using h

/-! ## C5 -/

/-- Claim C5: every admitted gated action (quiet time not active) raises
exactly its one associated need by 15 clamped at 100 and leaves the other
three needs unchanged (for in-range needs, as every reachable needs vector
is), unconditionally forces the state to AWAKE, resets the idle clock to
`now`, and clears the auto-wake deadline — even if the state was already
AWAKE. -/
theorem doAction_admitted_spec (st : AppState) (kind : ActionKind) (now : Int)
    (h : (isQuietActive st.store now).active = false) (hn : NeedsInRange st.needs) :
    (doAction st kind now).petState = .AWAKE ∧
    (doAction st kind now).lastInput = now ∧
    (doAction st kind now).sleepUntil = none ∧
    (doAction st kind now).needs = applyNeeds kind st.needs ∧
    (kind = .FEED → (doAction st kind now).needs =
      { st.needs with hunger := clamp (st.needs.hunger + 15) }) ∧
    (kind = .GROOM → (doAction st kind now).needs =
      { st.needs with cleanliness := clamp (st.needs.cleanliness + 15) }) ∧
    (kind = .PLAY → (doAction st kind now).needs =
      { st.needs with playfulness := clamp (st.needs.playfulness + 15) }) ∧
    (kind = .CUDDLE → (doAction st kind now).needs =
      { st.needs with affection := clamp (st.needs.affection + 15) }) := by
  obtain ⟨ps, ⟨nh, nc, np, na⟩, qu, su, li, sto⟩ := st
  obtain ⟨h1, h2, h3, h4, h5, h6, h7, h8⟩ := hn
  have e1 : clamp nh = nh := clamp_eq_self _ h1 h2
  have e2 : clamp nc = nc := clamp_eq_self _ h3 h4
  have e3 : clamp np = np := clamp_eq_self _ h5 h6
  have e4 : clamp na = na := clamp_eq_self _ h7 h8
  refine ⟨?_, ?_, ?_, ?_, ?_, ?_, ?_, ?_⟩
  · simp [doAction, h]
  · simp [doAction, h]
  · simp [doAction, h]
  · simp [doAction, h]
  · rintro rfl
    simp [doAction, h, applyNeeds, deltaOf, e2, e3, e4]
  · rintro rfl
    simp [doAction, h, applyNeeds, deltaOf, e1, e3, e4]
  · rintro rfl
    simp [doAction, h, applyNeeds, deltaOf, e1, e2, e4]
  · rintro rfl
    simp [doAction, h, applyNeeds, deltaOf, e1, e2, e3]

/-- Witness for C5 (the spec scenario): from needs {70,70,70,70} on a fresh
session, FEED at `now = 0` yields hunger = 85 with the other needs unchanged,
state AWAKE, idle clock reset. -/
theorem doAction_admitted_spec_witness :
    (doAction freshState .FEED 0).petState = .AWAKE ∧
    (doAction freshState .FEED 0).lastInput = 0 ∧
    (doAction freshState .FEED 0).needs = ⟨85, 70, 70, 70⟩ := by
  have h := doAction_admitted_spec freshState .FEED 0 (by decide) (by decide)
  refine ⟨h.1, h.2.1, ?_⟩
  rw [h.2.2.2.2.1 rfl]
  decide

/-! ## C2 -/

/-- Counterexample to C2 as stated: `doAction` contains no
PLAY-while-SLEEPING guard at all — the restriction lives only in the UI,
where the Play button is rendered `disabled` when `petState === 'SLEEPING'`.
Called directly on a SLEEPING state with quiet time inactive, `doAction`
with PLAY changes both the needs vector and the lifecycle state. -/
theorem doAction_play_sleeping_counterexample :
    (doAction ⟨.SLEEPING, ⟨70, 70, 70, 70⟩, none, some 999999, 0, ⟨[], none⟩⟩ .PLAY 0).needs ≠
      (⟨70, 70, 70, 70⟩ : Needs) ∧
    (doAction ⟨.SLEEPING, ⟨70, 70, 70, 70⟩, none, some 999999, 0, ⟨[], none⟩⟩ .PLAY 0).petState ≠
      .SLEEPING := by
  decide

/-- Claim C2 (amended): when the pet is SLEEPING and quiet time is not
active, applying PLAY is *not* a silent no-op in the core: `doAction`
processes it like any other admitted action — playfulness rises by 15
(clamped), the state is forced to AWAKE, the idle clock resets to `now`, and
the current minute is registered in the activity window. The PLAY-while-
SLEEPING restriction is enforced only at the UI layer via the disabled Play
button. -/
theorem doAction_play_sleeping_not_noop (st : AppState) (now : Int)
    (_hs : st.petState = .SLEEPING) (h : (isQuietActive st.store now).active = false) :
    (doAction st .PLAY now).petState = .AWAKE ∧
    (doAction st .PLAY now).needs.playfulness = clamp (st.needs.playfulness + 15) ∧
    (doAction st .PLAY now).lastInput = now ∧
    (doAction st .PLAY now).store.minutes =
      updatedMinutes (isQuietActive st.store now).store.minutes (nowMinute now) := by
  refine ⟨?_, ?_, ?_, ?_⟩
  · simp [doAction, h]
  · simp [doAction, h, applyNeeds, deltaOf]
  · simp [doAction, h]
  · simp [doAction, h, registerAction_store_minutes]

/-- Witness for C2's amended theorem: a SLEEPING pet with empty gate store;
PLAY at `now = 0` wakes it and raises playfulness to 85. -/
theorem doAction_play_sleeping_not_noop_witness :
    (doAction ⟨.SLEEPING, ⟨70, 70, 70, 70⟩, none, some 424242, 0, ⟨[], none⟩⟩ .PLAY 0).petState
      = .AWAKE ∧
    (doAction ⟨.SLEEPING, ⟨70, 70, 70, 70⟩, none, some 424242, 0, ⟨[], none⟩⟩ .PLAY 0).needs.playfulness
      = 85 := by
  have h := doAction_play_sleeping_not_noop
    ⟨.SLEEPING, ⟨70, 70, 70, 70⟩, none, some 424242, 0, ⟨[], none⟩⟩ 0 rfl (by decide)
  refine ⟨h.1, ?_⟩
  rw [h.2.1]
  decide

/-! ## C10 -/

/-- Claim C10: whenever quiet time is not active, `tryWake` itself calls
`registerAction`, so the current minute lands in the activity window —
gently waking the pet counts toward the 40-active-minute budget, and when
the window reaches the threshold, the wake itself starts the 20-minute
cooldown. It also sets the state to AWAKE, clears the auto-wake deadline,
and resets the idle clock, without changing any need value. -/
theorem tryWake_registers_action (st : AppState) (now : Int)
    (h : (isQuietActive st.store now).active = false) :
    tryWake st now =
      { st with petState := .AWAKE, sleepUntil := none, lastInput := now,
                store := (registerAction (isQuietActive st.store now).store now).store } ∧
    (tryWake st now).needs = st.needs ∧
    (tryWake st now).quietUntilUI = st.quietUntilUI ∧
    nowMinute now ∈ (tryWake st now).store.minutes ∧
    (ACTIVE_PLAY_LIMIT ≤
        ((registerAction (isQuietActive st.store now).store now).activeInWindow : Int) →
      (tryWake st now).store.quietUntil = some (now + QUIET_BLOCK_MIN * 60 * 1000)) := by
  have hmain : tryWake st now =
      { st with petState := .AWAKE, sleepUntil := none, lastInput := now,
                store := (registerAction (isQuietActive st.store now).store now).store } := by
    simp [tryWake, h]
  refine ⟨hmain, by rw [hmain], by rw [hmain], ?_, ?_⟩
  · rw [hmain]
    show nowMinute now ∈ (registerAction (isQuietActive st.store now).store now).store.minutes
    rw [registerAction_store_minutes, mem_updatedMinutes]
    exact Or.inr rfl
  · intro hA
    rw [hmain]
    show (registerAction (isQuietActive st.store now).store now).store.quietUntil = _
    rw [registerAction_store_quietUntil]
    exact quietUpdate_set _ _ _ (by rwa [registerAction_active] at hA)
      (isQuietActive_inactive_unset st.store now h)

/-- Witness for C10: gently waking a SLEEPING pet at `now = 0` on an empty
gate store leaves the needs untouched, wakes the pet, and records minute 0
in the activity window. -/
theorem tryWake_registers_action_witness :
    tryWake ⟨.SLEEPING, ⟨50, 50, 50, 50⟩, none, some 777777, 0, ⟨[], none⟩⟩ 0 =
      ⟨.AWAKE, ⟨50, 50, 50, 50⟩, none, none, 0, ⟨[0], none⟩⟩ ∧
    (0 : Int) ∈ (tryWake ⟨.SLEEPING, ⟨50, 50, 50, 50⟩, none, some 777777, 0, ⟨[], none⟩⟩ 0).store.minutes := by
  have h := tryWake_registers_action
    ⟨.SLEEPING, ⟨50, 50, 50, 50⟩, none, some 777777, 0, ⟨[], none⟩⟩ 0 (by decide)
  constructor
  · rw [h.1]
    decide
  · have hm := h.2.2.2.1
    simpa using hm

/-! ## C9 -/

lemma autoWakeSpan_lb (q : ℚ) (hq0 : 0 ≤ q) : AUTO_WAKE_MIN_MS ≤ autoWakeSpan q := by
  have hc : (0 : ℚ) ≤ ((AUTO_WAKE_MAX_MS - AUTO_WAKE_MIN_MS : Int) : ℚ) := by
    norm_num [AUTO_WAKE_MAX_MS, AUTO_WAKE_MIN_MS]
  have h0 : (0 : Int) ≤ ⌊q * ((AUTO_WAKE_MAX_MS - AUTO_WAKE_MIN_MS : Int) : ℚ)⌋ :=
    Int.floor_nonneg.mpr (mul_nonneg hq0 hc)
  unfold autoWakeSpan
  omega

lemma autoWakeSpan_ub (q : ℚ) (hq1 : q < 1) : autoWakeSpan q < AUTO_WAKE_MAX_MS := by
  have hlt : q * ((AUTO_WAKE_MAX_MS - AUTO_WAKE_MIN_MS : Int) : ℚ) <
      ((AUTO_WAKE_MAX_MS - AUTO_WAKE_MIN_MS : Int) : ℚ) := by
    have hpos : (0 : ℚ) < ((AUTO_WAKE_MAX_MS - AUTO_WAKE_MIN_MS : Int) : ℚ) := by
      norm_num [AUTO_WAKE_MAX_MS, AUTO_WAKE_MIN_MS]
    calc q * ((AUTO_WAKE_MAX_MS - AUTO_WAKE_MIN_MS : Int) : ℚ)
        < 1 * ((AUTO_WAKE_MAX_MS - AUTO_WAKE_MIN_MS : Int) : ℚ) := by
          exact mul_lt_mul_of_pos_right hq1 hpos
      _ = ((AUTO_WAKE_MAX_MS - AUTO_WAKE_MIN_MS : Int) : ℚ) := one_mul _
  have hfl : ⌊q * ((AUTO_WAKE_MAX_MS - AUTO_WAKE_MIN_MS : Int) : ℚ)⌋ <
      AUTO_WAKE_MAX_MS - AUTO_WAKE_MIN_MS :=
    Int.floor_lt.mpr (by exact_mod_cast hlt)
  unfold autoWakeSpan
  omega

/-- Claim C9: for every value `q ∈ [0,1)` the random source can return, the
auto-wake deadline drawn at the auto-idle SLEEPING transition (the branch of
`idleCheck` whose guard holds) lies in
`[transition time + 5 min, transition time + 12 min)`. -/
theorem idleCheck_autowake_bounds (st : AppState) (now : Int) (q : ℚ)
    (hq0 : 0 ≤ q) (hq1 : q < 1)
    (hsince : IDLE_TO_DROWSY_MS + DROWSY_TO_SLEEP_MS ≤ now - st.lastInput)
    (hstate : st.petState ≠ .SLEEPING) :
    (idleCheck st now q).sleepUntil = some (now + autoWakeSpan q) ∧
    now + AUTO_WAKE_MIN_MS ≤ now + autoWakeSpan q ∧
    now + autoWakeSpan q < now + AUTO_WAKE_MAX_MS := by
  refine ⟨?_, ?_, ?_⟩
  · simp [idleCheck, hsince, hstate]
  · have := autoWakeSpan_lb q hq0
    omega
  · have := autoWakeSpan_ub q hq1
    omega

/-- Witness for C9: a DROWSY pet idle for exactly 10 minutes at
`now = 600000` with random draw 1/2 gets a deadline within
`[600000 + 5 min, 600000 + 12 min)`. -/
theorem idleCheck_autowake_bounds_witness :
    (idleCheck ⟨.DROWSY, ⟨60, 60, 60, 60⟩, none, none, 0, ⟨[], none⟩⟩ 600000 (1/2)).sleepUntil
      = some (600000 + autoWakeSpan (1/2)) ∧
    600000 + AUTO_WAKE_MIN_MS ≤ 600000 + autoWakeSpan (1/2 : ℚ) ∧
    600000 + autoWakeSpan (1/2 : ℚ) < 600000 + AUTO_WAKE_MAX_MS :=
  idleCheck_autowake_bounds ⟨.DROWSY, ⟨60, 60, 60, 60⟩, none, none, 0, ⟨[], none⟩⟩ 600000 (1/2)
    (by norm_num) (by norm_num) (by decide) (by decide)

/-! ## C4 -/

lemma applyOp_preserves_needsInRange (st : AppState) (op : Op)
    (h : NeedsInRange st.needs) : NeedsInRange (applyOp st op).needs := by
  cases op with
  | decay =>
      show NeedsInRange (decayTick st).needs
      obtain ⟨ps, ⟨nh, nc, np, na⟩, qu, su, li, sto⟩ := st
      cases ps with
      | AWAKE => exact needsInRange_of_clamped _ _ _ _
      | DROWSY => exact needsInRange_of_clamped _ _ _ _
      | SLEEPING => exact h
  | act kind now =>
      show NeedsInRange (doAction st kind now).needs
      by_cases hb : (isQuietActive st.store now).active = true
      · simpa [doAction, hb] using h
      · simp only [Bool.not_eq_true] at hb
        have : (doAction st kind now).needs = applyNeeds kind st.needs := by
          simp [doAction, hb]
        rw [this]
        exact needsInRange_applyNeeds kind st.needs
  | wake now =>
      show NeedsInRange (tryWake st now).needs
      rw [tryWake_needs]
      exact h
  | tick now q =>
      show NeedsInRange (tickSecond st now q).needs
      rw [tickSecond_needs]
      exact h

/-- Claim C4: starting from any state whose four need values lie in [0,100],
every sequence of decay ticks, action presses, gentle wakes, and heartbeat
ticks keeps all four need values in [0,100] — decay subtracts 1 clamped at 0,
actions add 15 clamped at 100, and every need stays a defined integer. -/
theorem needs_stay_in_range (st : AppState) (ops : List Op)
    (h : NeedsInRange st.needs) : NeedsInRange (runOps st ops).needs := by
  induction ops generalizing st with
  | nil => exact h
  | cons op ops ih => exact ih (applyOp st op) (applyOp_preserves_needsInRange st op h)

/-- Witness for C4: from the fresh session (all needs 70), a concrete mixed
sequence of decay, FEED, wake, and heartbeat keeps every need in range. -/
theorem needs_stay_in_range_witness :
    NeedsInRange (runOps freshState
      [Op.decay, Op.act .FEED 1000, Op.decay, Op.wake 2000, Op.tick 3000 0]).needs :=
  needs_stay_in_range freshState
    [Op.decay, Op.act .FEED 1000, Op.decay, Op.wake 2000, Op.tick 3000 0] (by decide)

/-! ## C8 -/

/-- The App state reached by pure idling once the pet has gone DROWSY. -/
def drowsyIdleState : AppState := { freshState with petState := .DROWSY }

/-- The App state reached by pure idling once the pet has auto-slept at
`t = 600000` ms (`IDLE_TO_DROWSY_MS + DROWSY_TO_SLEEP_MS`): the auto-wake
deadline is `600000 + autoWakeSpan q`. -/
def sleepingIdleState (q : ℚ) : AppState :=
  { freshState with
    petState := .SLEEPING
    sleepUntil := some (600000 + autoWakeSpan q) }

lemma idleCheck_noop (st : AppState) (now : Int) (q : ℚ)
    (hA : ¬(IDLE_TO_DROWSY_MS + DROWSY_TO_SLEEP_MS ≤ now - st.lastInput ∧
        st.petState ≠ PetState.SLEEPING))
    (hB : ¬(st.petState = PetState.AWAKE ∧ IDLE_TO_DROWSY_MS ≤ now - st.lastInput)) :
    idleCheck st now q = st := by
  unfold idleCheck
  dsimp only
  rw [if_neg hA, if_neg hB]

lemma idleCheck_to_drowsy (st : AppState) (now : Int) (q : ℚ)
    (hA : ¬(IDLE_TO_DROWSY_MS + DROWSY_TO_SLEEP_MS ≤ now - st.lastInput ∧
        st.petState ≠ PetState.SLEEPING))
    (hB : st.petState = PetState.AWAKE ∧ IDLE_TO_DROWSY_MS ≤ now - st.lastInput) :
    idleCheck st now q = { st with petState := .DROWSY } := by
  unfold idleCheck
  dsimp only
  rw [if_neg hA, if_pos hB]

lemma idleCheck_to_sleep (st : AppState) (now : Int) (q : ℚ)
    (hA : IDLE_TO_DROWSY_MS + DROWSY_TO_SLEEP_MS ≤ now - st.lastInput ∧
        st.petState ≠ PetState.SLEEPING) :
    idleCheck st now q =
      { st with petState := .SLEEPING, sleepUntil := some (now + autoWakeSpan q) } := by
  unfold idleCheck
  dsimp only
  rw [if_pos hA]

lemma autoWakeCheck_of_none (st : AppState) (now : Int) (h : st.sleepUntil = none) :
    autoWakeCheck st now = st := by
  unfold autoWakeCheck
  rw [h]

lemma autoWakeCheck_of_lt (st : AppState) (now u : Int) (hsu : st.sleepUntil = some u)
    (h0 : ¬u = 0) (hlt : ¬u ≤ now) :
    autoWakeCheck st now = st := by
  unfold autoWakeCheck
  rw [hsu]
  dsimp only
  rw [if_neg h0, if_neg hlt]

lemma tick_fresh_stay (now : Int) (q : ℚ) (h2 : now < IDLE_TO_DROWSY_MS) :
    tickSecond freshState now q = freshState := by
  unfold IDLE_TO_DROWSY_MS at h2
  unfold tickSecond
  rw [idleCheck_noop, autoWakeCheck_of_none]
  · rfl
  · rintro ⟨hle, -⟩
    revert hle
    norm_num [freshState, IDLE_TO_DROWSY_MS, DROWSY_TO_SLEEP_MS]
    omega
  · rintro ⟨-, hle⟩
    revert hle
    norm_num [freshState, IDLE_TO_DROWSY_MS]
    omega

lemma tick_fresh_drowsy (now : Int) (q : ℚ) (h1 : IDLE_TO_DROWSY_MS ≤ now)
    (h2 : now < IDLE_TO_DROWSY_MS + DROWSY_TO_SLEEP_MS) :
    tickSecond freshState now q = drowsyIdleState := by
  unfold IDLE_TO_DROWSY_MS at h1
  unfold IDLE_TO_DROWSY_MS DROWSY_TO_SLEEP_MS at h2
  unfold tickSecond
  rw [idleCheck_to_drowsy, autoWakeCheck_of_none]
  · rfl
  · rfl
  · rintro ⟨hle, -⟩
    revert hle
    norm_num [freshState, IDLE_TO_DROWSY_MS, DROWSY_TO_SLEEP_MS]
    omega
  · refine ⟨rfl, ?_⟩
    norm_num [freshState, IDLE_TO_DROWSY_MS]
    omega

lemma tick_drowsy_stay (now : Int) (q : ℚ)
    (h2 : now < IDLE_TO_DROWSY_MS + DROWSY_TO_SLEEP_MS) :
    tickSecond drowsyIdleState now q = drowsyIdleState := by
  unfold IDLE_TO_DROWSY_MS DROWSY_TO_SLEEP_MS at h2
  unfold tickSecond
  rw [idleCheck_noop, autoWakeCheck_of_none]
  · rfl
  · rintro ⟨hle, -⟩
    revert hle
    norm_num [drowsyIdleState, freshState, IDLE_TO_DROWSY_MS, DROWSY_TO_SLEEP_MS]
    omega
  · rintro ⟨heq, -⟩
    simp [drowsyIdleState, freshState] at heq

lemma tick_drowsy_sleep (q : ℚ) (h300 : (300000 : Int) ≤ autoWakeSpan q) :
    tickSecond drowsyIdleState 600000 q = sleepingIdleState q := by
  unfold tickSecond
  rw [idleCheck_to_sleep, autoWakeCheck_of_lt _ 600000 (600000 + autoWakeSpan q)]
  · rfl
  · rfl
  · omega
  · omega
  · constructor
    · norm_num [drowsyIdleState, freshState, IDLE_TO_DROWSY_MS, DROWSY_TO_SLEEP_MS]
    · simp [drowsyIdleState, freshState]

lemma tick_sleeping_stay (now : Int) (q : ℚ) (h300 : (300000 : Int) ≤ autoWakeSpan q)
    (hlt : now < 600000 + autoWakeSpan q) :
    tickSecond (sleepingIdleState q) now q = sleepingIdleState q := by
  unfold tickSecond
  rw [idleCheck_noop, autoWakeCheck_of_lt _ now (600000 + autoWakeSpan q)]
  · rfl
  · omega
  · omega
  · rintro ⟨-, hne⟩
    exact hne rfl
  · rintro ⟨heq, -⟩
    simp [sleepingIdleState, freshState] at heq



lemma runIdle_char (q : ℚ) (h300 : (300000 : Int) ≤ autoWakeSpan q) (t : Nat) :
    (t < 480 → runIdle q t = freshState) ∧
    (480 ≤ t → t < 600 → runIdle q t = drowsyIdleState) ∧
    (600 ≤ t → 1000 * (t : Int) < 600000 + autoWakeSpan q →
      runIdle q t = sleepingIdleState q) := by
  induction t with
  | zero =>
      refine ⟨fun _ => rfl, ?_, ?_⟩ <;> omega
  | succ t ih =>
      have hstep : runIdle q (t + 1) = tickSecond (runIdle q t) (1000 * ((t : Int) + 1)) q := by
        show runIdle q (t + 1) = _
        rfl
      refine ⟨?_, ?_, ?_⟩
      · intro h
        rw [hstep, ih.1 (by omega)]
        apply tick_fresh_stay
        unfold IDLE_TO_DROWSY_MS
        push_cast
        omega
      · intro h1 h2
        by_cases ht : t + 1 = 480
        · rw [hstep, ih.1 (by omega)]
          apply tick_fresh_drowsy
          · unfold IDLE_TO_DROWSY_MS
            push_cast
            omega
          · unfold IDLE_TO_DROWSY_MS DROWSY_TO_SLEEP_MS
            push_cast
            omega
        · rw [hstep, ih.2.1 (by omega) (by omega)]
          apply tick_drowsy_stay
          unfold IDLE_TO_DROWSY_MS DROWSY_TO_SLEEP_MS
          push_cast
          omega
      · intro h1 h2
        by_cases ht : t + 1 = 600
        · rw [hstep, ih.2.1 (by omega) (by omega)]
          have hnow : 1000 * ((t : Int) + 1) = 600000 := by
            have : (t : Int) = 599 := by omega
            rw [this]
            norm_num
          rw [hnow]
          exact tick_drowsy_sleep q h300
        · rw [hstep, ih.2.2 (by omega) (by push_cast at h2 ⊢; omega)]
          apply tick_sleeping_stay _ _ h300
          push_cast at h2 ⊢
          omega

/-- Claim C8: with no qualifying activity from `t = 0` and 1 Hz ticks, the
lifecycle state is AWAKE for all `t` in `[0, 8 min)`, DROWSY for all `t` in
`[8 min, 10 min)`, and SLEEPING for all `t ≥ 10 min` up to the drawn
auto-wake deadline (when the first auto-wake occurs), for every random draw
`q ∈ [0, 1)`. Times compare `1000·t` ms against the idle thresholds. -/
theorem idle_run_sleep_timing (q : ℚ) (hq0 : 0 ≤ q) (_hq1 : q < 1) (t : Nat) :
    (1000 * (t : Int) < IDLE_TO_DROWSY_MS → (runIdle q t).petState = .AWAKE) ∧
    (IDLE_TO_DROWSY_MS ≤ 1000 * (t : Int) →
      1000 * (t : Int) < IDLE_TO_DROWSY_MS + DROWSY_TO_SLEEP_MS →
      (runIdle q t).petState = .DROWSY) ∧
    (IDLE_TO_DROWSY_MS + DROWSY_TO_SLEEP_MS ≤ 1000 * (t : Int) →
      1000 * (t : Int) < IDLE_TO_DROWSY_MS + DROWSY_TO_SLEEP_MS + autoWakeSpan q →
      (runIdle q t).petState = .SLEEPING) := by
  have h300 : (300000 : Int) ≤ autoWakeSpan q := by
    have := autoWakeSpan_lb q hq0
    unfold AUTO_WAKE_MIN_MS at this
    omega
  have hc := runIdle_char q h300 t
  refine ⟨?_, ?_, ?_⟩
  · intro h
    unfold IDLE_TO_DROWSY_MS at h
    rw [hc.1 (by omega)]
    rfl
  · intro h1 h2
    unfold IDLE_TO_DROWSY_MS at h1
    unfold IDLE_TO_DROWSY_MS DROWSY_TO_SLEEP_MS at h2
    rw [hc.2.1 (by omega) (by omega)]
    rfl
  · intro h1 h2
    unfold IDLE_TO_DROWSY_MS DROWSY_TO_SLEEP_MS at h1 h2
    rw [hc.2.2 (by omega) (by omega)]
    rfl

/-- Witness for C8: with random draw 0, the pet is AWAKE at t = 100 s,
DROWSY at t = 500 s, and SLEEPING at t = 650 s. -/
theorem idle_run_sleep_timing_witness :
    (runIdle 0 100).petState = .AWAKE ∧
    (runIdle 0 500).petState = .DROWSY ∧
    (runIdle 0 650).petState = .SLEEPING := by
  have ha := (idle_run_sleep_timing 0 (by norm_num) (by norm_num) 100).1
  have hd := (idle_run_sleep_timing 0 (by norm_num) (by norm_num) 500).2.1
  have hs := (idle_run_sleep_timing 0 (by norm_num) (by norm_num) 650).2.2
  have hspan : autoWakeSpan 0 = 300000 := by
    norm_num [autoWakeSpan, AUTO_WAKE_MIN_MS, AUTO_WAKE_MAX_MS]
  refine ⟨?_, ?_, ?_⟩
  · exact ha (by norm_num [IDLE_TO_DROWSY_MS])
  · exact hd (by norm_num [IDLE_TO_DROWSY_MS])
      (by norm_num [IDLE_TO_DROWSY_MS, DROWSY_TO_SLEEP_MS])
  · exact hs (by norm_num [IDLE_TO_DROWSY_MS, DROWSY_TO_SLEEP_MS])
      (by rw [hspan]; norm_num [IDLE_TO_DROWSY_MS, DROWSY_TO_SLEEP_MS])

end VirtualPet
